import Mathlib

/-!
Shallow embedding of the `aws-cdk-fargate` repository: two CDK stacks
(`AwsCdkEc2Stack`, CDK v1, in `lib/aws-cdk-ec2-stack.ts`, and
`AwsCdkFargateStack`, CDK v2, in the unnamed v2 source file) that declare
the same infrastructure: a VPC, two security groups, a hosted-zone lookup,
a DNS-validated certificate, an application load balancer with one HTTPS
listener, a target group, an ECS cluster, a Fargate task definition with
one container, a Fargate service, and an alias DNS record.

Each CDK construct becomes a Lean structure holding exactly the attributes
the source sets; construct-to-construct references are recorded by the
referenced construct's id string. Each stack constructor becomes a Lean
function of the two module-level configuration constants (`domainName`,
`projectName`), with the source's concrete values bound separately.
-/

/-- Subnet reachability class (`ec2.SubnetType`). The source uses only
`PUBLIC` and `PRIVATE_ISOLATED`. -/
inductive SubnetType where
  | PUBLIC
  | PRIVATE_ISOLATED
deriving DecidableEq, Repr

/-- One entry of a VPC's `subnetConfiguration` list. -/
structure SubnetConfiguration where
  cidrMask : Nat
  name : String
  subnetType : SubnetType
deriving DecidableEq, Repr

/-- `ec2.Vpc` with the attributes the source sets. -/
structure Vpc where
  id : String
  cidr : String
  vpcName : String
  enableDnsHostnames : Bool
  enableDnsSupport : Bool
  subnetConfiguration : List SubnetConfiguration
deriving DecidableEq, Repr

/-- IP protocol of an ingress rule; `ec2.Port.tcp` yields `tcp`. -/
inductive IpProtocol where
  | tcp
  | udp
deriving DecidableEq, Repr

/-- One ingress rule as added by `SecurityGroup.addIngressRule(peer, port,
description)`; `peer` is the source IPv4 range of `ec2.Peer.ipv4`. -/
structure IngressRule where
  peer : String
  protocol : IpProtocol
  port : Nat
  description : String
deriving DecidableEq, Repr

/-- `ec2.SecurityGroup`: owning VPC (by id), name, and the ingress rules
accumulated by `addIngressRule` calls, in order. -/
structure SecurityGroup where
  id : String
  vpc : String
  securityGroupName : String
  ingressRules : List IngressRule
deriving DecidableEq, Repr

/-- `route53.HostedZone.fromLookup`: a zone reference by domain name. -/
structure HostedZone where
  id : String
  domainName : String
deriving DecidableEq, Repr

/-- `DnsValidatedCertificate`: optional display name (only the CDK-v2
stack sets `certificateName`), domain, owning zone (by id), and issuing
region. -/
structure DnsValidatedCertificate where
  id : String
  certificateName : Option String
  domainName : String
  hostedZone : String
  region : String
deriving DecidableEq, Repr

/-- `elbv2.ApplicationLoadBalancer` with the attributes the source sets. -/
structure ApplicationLoadBalancer where
  id : String
  vpc : String
  internetFacing : Bool
  securityGroup : String
  loadBalancerName : String
deriving DecidableEq, Repr

/-- A listener created by `alb.addListener`: owning balancer (by id),
port, the certificates presented (by certificate construct id, the
`certificateArn` reference), and the target groups (by id) its traffic is
forwarded to, as added by `addTargetGroups`. -/
structure ApplicationListener where
  id : String
  loadBalancer : String
  port : Nat
  certificates : List String
  targetGroups : List String
deriving DecidableEq, Repr

/-- Target-group health check: polled path and the `healthyHttpCodes`
string (AWS syntax: comma-separated codes or `lo-hi` ranges). -/
structure HealthCheck where
  path : String
  healthyHttpCodes : String
deriving DecidableEq, Repr

/-- `elbv2.TargetType`; the source uses `IP` (address-based targets). -/
inductive TargetType where
  | IP
  | INSTANCE
deriving DecidableEq, Repr

/-- `elbv2.ApplicationProtocol`. -/
inductive ApplicationProtocol where
  | HTTP
  | HTTPS
deriving DecidableEq, Repr

/-- `elbv2.ApplicationTargetGroup` with the attributes the source sets. -/
structure ApplicationTargetGroup where
  id : String
  vpc : String
  port : Nat
  targetType : TargetType
  protocol : ApplicationProtocol
  targetGroupName : String
  healthCheck : HealthCheck
deriving DecidableEq, Repr

/-- `ecs.Cluster` with the attributes the source sets. -/
structure Cluster where
  id : String
  vpc : String
  clusterName : String
deriving DecidableEq, Repr

/-- One port mapping added by `container.addPortMappings`. -/
structure PortMapping where
  containerPort : Nat
  hostPort : Nat
deriving DecidableEq, Repr

/-- `ecs.LogDrivers.awsLogs`: stream name prefix and log retention in
days (`log.RetentionDays.ONE_MONTH` is the enum value 30). -/
structure AwsLogDriver where
  streamPrefixName : String
  logRetentionDays : Nat
deriving DecidableEq, Repr

/-- The CDK enum value of `RetentionDays.ONE_MONTH`: 30 days. -/
def RetentionDays.ONE_MONTH : Nat := 30

/-- A container added by `taskDefinition.addContainer`: name, the local
asset directory of `ContainerImage.fromAsset`, log driver, and the port
mappings accumulated by `addPortMappings`, in order. -/
structure ContainerDefinition where
  id : String
  containerName : String
  imageAsset : String
  logging : AwsLogDriver
  portMappings : List PortMapping
deriving DecidableEq, Repr

/-- `ecs.FargateTaskDefinition`: resource reservation and the containers
added by `addContainer`, in order. -/
structure FargateTaskDefinition where
  id : String
  memoryLimitMiB : Nat
  cpu : Nat
  containers : List ContainerDefinition
deriving DecidableEq, Repr

/-- `ecs.FargateService`: cluster and task definition (by id), desired
replica count, public-IP flag, attached security groups (by id), and the
target groups (by id) it registered itself into via
`attachToApplicationTargetGroup`. -/
structure FargateService where
  id : String
  cluster : String
  serviceName : String
  taskDefinition : String
  desiredCount : Nat
  assignPublicIp : Bool
  securityGroups : List String
  attachedTargetGroups : List String
deriving DecidableEq, Repr

/-- An alias target as built by `route53Targets.LoadBalancerTarget(alb)`:
a reference to a load balancer by id. -/
inductive AliasTarget where
  | loadBalancerTarget (alb : String)
deriving DecidableEq, Repr

/-- A Route53 record target: either an alias target
(`RecordTarget.fromAlias`) or a list of static IP addresses
(`RecordTarget.fromIpAddresses`); the source only uses the former. -/
inductive RecordTarget where
  | fromAlias (target : AliasTarget)
  | fromIpAddresses (ips : List String)
deriving DecidableEq, Repr

/-- `route53.ARecord` with the attributes the source sets. -/
structure ARecord where
  id : String
  zone : String
  recordName : String
  target : RecordTarget
deriving DecidableEq, Repr

/-- All resources one stack constructor declares, in source order. -/
structure StackResources where
  vpc : Vpc
  securityGroupELB : SecurityGroup
  securityGroupApp : SecurityGroup
  hostedZone : HostedZone
  cert : DnsValidatedCertificate
  alb : ApplicationLoadBalancer
  listeners : List ApplicationListener
  targetGroup : ApplicationTargetGroup
  cluster : Cluster
  fargateTaskDefinition : FargateTaskDefinition
  service : FargateService
  aliasRecord : ARecord
deriving DecidableEq, Repr

/-- Module-level constant `domainName` (identical in both source files). -/
def domainName : String := "nikolatec.com"

/-- Module-level constant `projectName` (identical in both source files). -/
def projectName : String := "backend-api"

/-- The body of the `AwsCdkEc2Stack` constructor
(`lib/aws-cdk-ec2-stack.ts`, CDK v1), as a function of the two
module-level configuration constants `d` (= `domainName`) and
`p` (= `projectName`). Every attribute mirrors the source literally;
the CDK-v1 `DnsValidatedCertificate` sets no `certificateName`. -/
def mkAwsCdkEc2Stack (d p : String) : StackResources :=
  let vpc : Vpc :=
    { id := p ++ "-vpc"
      cidr := "10.1.0.0/16"
      vpcName := p ++ "-vpc"
      enableDnsHostnames := true
      enableDnsSupport := true
      subnetConfiguration :=
        [ { cidrMask := 24, name := "PublicSubnet",
            subnetType := SubnetType.PUBLIC },
          { cidrMask := 24, name := "PrivateIsolatedSubnet",
            subnetType := SubnetType.PRIVATE_ISOLATED } ] }
  let securityGroupELB : SecurityGroup :=
    { id := p ++ "-security-group-elb"
      vpc := vpc.id
      securityGroupName := p ++ "-security-group-elb"
      ingressRules :=
        [ { peer := "0.0.0.0/0", protocol := IpProtocol.tcp, port := 443,
            description := "allow HTTPS traffic from anywhere" } ] }
  let securityGroupApp : SecurityGroup :=
    { id := p ++ "-security-group-app"
      vpc := vpc.id
      securityGroupName := p ++ "-security-group-app"
      ingressRules := [] }
  let hostedZone : HostedZone :=
    { id := p ++ "-hosted-zone", domainName := d }
  let cert : DnsValidatedCertificate :=
    { id := p ++ "-certificate"
      certificateName := none
      domainName := d
      hostedZone := hostedZone.id
      region := "us-east-1" }
  let alb : ApplicationLoadBalancer :=
    { id := p ++ "-alb"
      vpc := vpc.id
      internetFacing := true
      securityGroup := securityGroupELB.id
      loadBalancerName := p ++ "-alb" }
  let targetGroup : ApplicationTargetGroup :=
    { id := p ++ "-target-group"
      vpc := vpc.id
      port := 3000
      targetType := TargetType.IP
      protocol := ApplicationProtocol.HTTP
      targetGroupName := p ++ "-target-group"
      healthCheck := { path := "/", healthyHttpCodes := "200" } }
  let listenerHTTP : ApplicationListener :=
    { id := p ++ "-listener-http"
      loadBalancer := alb.id
      port := 443
      certificates := [cert.id]
      targetGroups := [targetGroup.id] }
  let cluster : Cluster :=
    { id := p ++ "-cluster", vpc := vpc.id, clusterName := p ++ "-cluster" }
  let container : ContainerDefinition :=
    { id := p ++ "-container"
      containerName := p ++ "-container"
      imageAsset := "../backend-api"
      logging := { streamPrefixName := "nest-app",
                   logRetentionDays := RetentionDays.ONE_MONTH }
      portMappings := [ { containerPort := 3000, hostPort := 3000 } ] }
  let fargateTaskDefinition : FargateTaskDefinition :=
    { id := p ++ "-task-def"
      memoryLimitMiB := 1024
      cpu := 512
      containers := [container] }
  let service : FargateService :=
    { id := p ++ "-service"
      cluster := cluster.id
      serviceName := p ++ "-service"
      taskDefinition := fargateTaskDefinition.id
      desiredCount := 1
      assignPublicIp := true
      securityGroups := [securityGroupApp.id]
      attachedTargetGroups := [targetGroup.id] }
  let aliasRecord : ARecord :=
    { id := p ++ "-alias-record"
      zone := hostedZone.id
      recordName := "backend." ++ d
      target := RecordTarget.fromAlias (AliasTarget.loadBalancerTarget alb.id) }
  { vpc := vpc
    securityGroupELB := securityGroupELB
    securityGroupApp := securityGroupApp
    hostedZone := hostedZone
    cert := cert
    alb := alb
    listeners := [listenerHTTP]
    targetGroup := targetGroup
    cluster := cluster
    fargateTaskDefinition := fargateTaskDefinition
    service := service
    aliasRecord := aliasRecord }

/-- The body of the `AwsCdkFargateStack` constructor (CDK v2 source
file), as a function of `d` (= `domainName`) and `p` (= `projectName`).
Identical to `mkAwsCdkEc2Stack` attribute for attribute, except that the
certificate additionally sets `certificateName`. -/
def mkAwsCdkFargateStack (d p : String) : StackResources :=
  let vpc : Vpc :=
    { id := p ++ "-vpc"
      cidr := "10.1.0.0/16"
      vpcName := p ++ "-vpc"
      enableDnsHostnames := true
      enableDnsSupport := true
      subnetConfiguration :=
        [ { cidrMask := 24, name := "PublicSubnet",
            subnetType := SubnetType.PUBLIC },
          { cidrMask := 24, name := "PrivateIsolatedSubnet",
            subnetType := SubnetType.PRIVATE_ISOLATED } ] }
  let securityGroupELB : SecurityGroup :=
    { id := p ++ "-security-group-elb"
      vpc := vpc.id
      securityGroupName := p ++ "-security-group-elb"
      ingressRules :=
        [ { peer := "0.0.0.0/0", protocol := IpProtocol.tcp, port := 443,
            description := "allow HTTPS traffic from anywhere" } ] }
  let securityGroupApp : SecurityGroup :=
    { id := p ++ "-security-group-app"
      vpc := vpc.id
      securityGroupName := p ++ "-security-group-app"
      ingressRules := [] }
  let hostedZone : HostedZone :=
    { id := p ++ "-hosted-zone", domainName := d }
  let cert : DnsValidatedCertificate :=
    { id := p ++ "-certificate"
      certificateName := some (p ++ "-certificate")
      domainName := d
      hostedZone := hostedZone.id
      region := "us-east-1" }
  let alb : ApplicationLoadBalancer :=
    { id := p ++ "-alb"
      vpc := vpc.id
      internetFacing := true
      securityGroup := securityGroupELB.id
      loadBalancerName := p ++ "-alb" }
  let targetGroup : ApplicationTargetGroup :=
    { id := p ++ "-target-group"
      vpc := vpc.id
      port := 3000
      targetType := TargetType.IP
      protocol := ApplicationProtocol.HTTP
      targetGroupName := p ++ "-target-group"
      healthCheck := { path := "/", healthyHttpCodes := "200" } }
  let listenerHTTP : ApplicationListener :=
    { id := p ++ "-listener-http"
      loadBalancer := alb.id
      port := 443
      certificates := [cert.id]
      targetGroups := [targetGroup.id] }
  let cluster : Cluster :=
    { id := p ++ "-cluster", vpc := vpc.id, clusterName := p ++ "-cluster" }
  let container : ContainerDefinition :=
    { id := p ++ "-container"
      containerName := p ++ "-container"
      imageAsset := "../backend-api"
      logging := { streamPrefixName := "nest-app",
                   logRetentionDays := RetentionDays.ONE_MONTH }
      portMappings := [ { containerPort := 3000, hostPort := 3000 } ] }
  let fargateTaskDefinition : FargateTaskDefinition :=
    { id := p ++ "-task-def"
      memoryLimitMiB := 1024
      cpu := 512
      containers := [container] }
  let service : FargateService :=
    { id := p ++ "-service"
      cluster := cluster.id
      serviceName := p ++ "-service"
      taskDefinition := fargateTaskDefinition.id
      desiredCount := 1
      assignPublicIp := true
      securityGroups := [securityGroupApp.id]
      attachedTargetGroups := [targetGroup.id] }
  let aliasRecord : ARecord :=
    { id := p ++ "-alias-record"
      zone := hostedZone.id
      recordName := "backend." ++ d
      target := RecordTarget.fromAlias (AliasTarget.loadBalancerTarget alb.id) }
  { vpc := vpc
    securityGroupELB := securityGroupELB
    securityGroupApp := securityGroupApp
    hostedZone := hostedZone
    cert := cert
    alb := alb
    listeners := [listenerHTTP]
    targetGroup := targetGroup
    cluster := cluster
    fargateTaskDefinition := fargateTaskDefinition
    service := service
    aliasRecord := aliasRecord }

/-- The concrete CDK-v1 stack, with the source's constants bound. -/
def awsCdkEc2Stack : StackResources := mkAwsCdkEc2Stack domainName projectName

/-- The concrete CDK-v2 stack, with the source's constants bound. -/
def awsCdkFargateStack : StackResources :=
  mkAwsCdkFargateStack domainName projectName

/-- Split a character list at every occurrence of the separator `c`. -/
def splitOnChar (c : Char) : List Char → List (List Char)
  | [] => [[]]
  | x :: xs =>
      match splitOnChar c xs with
      | [] => if x = c then [[], []] else [[x]]
      | y :: ys => if x = c then [] :: y :: ys else (x :: y) :: ys

/-- Decimal value of a digit string given as a character list. -/
def digitsToNat (l : List Char) : Nat :=
  l.foldl (fun acc c => acc * 10 + (c.toNat - 48)) 0

/-- Interpretation of an AWS `healthyHttpCodes` string as the set of
accepted status codes: comma-separated entries, each a single code or an
inclusive `lo-hi` range. -/
def parseHttpCodes (s : String) : List Nat :=
  (splitOnChar ',' s.toList).flatMap fun part =>
    match splitOnChar '-' part with
    | [a] => [digitsToNat a]
    | [a, b] =>
        (List.range (digitsToNat b + 1)).filter fun n => digitsToNat a ≤ n
    | _ => []

/-- Forgetting the one optional attribute only the CDK-v2 stack sets: the
certificate display name. -/
def eraseCertificateName (s : StackResources) : StackResources :=
  { s with cert := { s.cert with certificateName := none } }

/-- C1: the CDK-v1 stack `AwsCdkEc2Stack` and the CDK-v2 stack
`AwsCdkFargateStack` declare behaviorally identical resource graphs: for
any configuration constants, erasing the certificate display name from
the v2 stack yields exactly the v1 stack, the v1 stack sets no
certificate display name, and the v2 stack sets exactly one. -/
theorem variants_identical_up_to_certificate_name (d p : String) :
    eraseCertificateName (mkAwsCdkFargateStack d p) = mkAwsCdkEc2Stack d p ∧
    (mkAwsCdkEc2Stack d p).cert.certificateName = none ∧
    (mkAwsCdkFargateStack d p).cert.certificateName =
      some (p ++ "-certificate") :=
  ⟨rfl, rfl, rfl⟩

/-- C2: the balancer-facing security group of the constructed stack has
exactly one ingress rule, with protocol TCP, port 443 and source range
0.0.0.0/0, in both variants. -/
theorem securityGroupELB_single_https_ingress :
    awsCdkFargateStack.securityGroupELB.ingressRules =
      [ { peer := "0.0.0.0/0", protocol := IpProtocol.tcp, port := 443,
          description := "allow HTTPS traffic from anywhere" } ] ∧
    awsCdkEc2Stack.securityGroupELB.ingressRules =
      [ { peer := "0.0.0.0/0", protocol := IpProtocol.tcp, port := 443,
          description := "allow HTTPS traffic from anywhere" } ] :=
  ⟨rfl, rfl⟩

/-- C3: the workload-facing security group of the constructed stack has
no explicit ingress rule, in both variants. -/
theorem securityGroupApp_no_ingress :
    awsCdkFargateStack.securityGroupApp.ingressRules = [] ∧
    awsCdkEc2Stack.securityGroupApp.ingressRules = [] :=
  ⟨rfl, rfl⟩

/-- C4: synthesis is parameterized by a domain and a prefix and all
derived names follow the given scheme; with domain `example.com` and
prefix `svc` the target group is named `svc-target-group`, listens on
port 3000 with health check `/` expecting status 200, and the DNS record
is named `backend.example.com` and aliases the load balancer `svc-alb`. -/
theorem synthesis_naming_scheme :
    (∀ d p : String,
      (mkAwsCdkFargateStack d p).targetGroup.targetGroupName =
        p ++ "-target-group" ∧
      (mkAwsCdkFargateStack d p).alb.loadBalancerName = p ++ "-alb" ∧
      (mkAwsCdkFargateStack d p).aliasRecord.recordName = "backend." ++ d) ∧
    (mkAwsCdkFargateStack "example.com" "svc").targetGroup.targetGroupName =
      "svc-target-group" ∧
    (mkAwsCdkFargateStack "example.com" "svc").targetGroup.port = 3000 ∧
    (mkAwsCdkFargateStack "example.com" "svc").targetGroup.healthCheck.path =
      "/" ∧
    parseHttpCodes
      (mkAwsCdkFargateStack "example.com"
        "svc").targetGroup.healthCheck.healthyHttpCodes = [200] ∧
    (mkAwsCdkFargateStack "example.com" "svc").aliasRecord.recordName =
      "backend.example.com" ∧
    (mkAwsCdkFargateStack "example.com" "svc").alb.loadBalancerName =
      "svc-alb" ∧
    (mkAwsCdkFargateStack "example.com" "svc").aliasRecord.target =
      RecordTarget.fromAlias
        (AliasTarget.loadBalancerTarget
          ((mkAwsCdkFargateStack "example.com" "svc").alb.id)) :=
  ⟨fun _ _ => ⟨rfl, rfl, rfl⟩, by decide, rfl, rfl, by decide, by decide,
    by decide, rfl⟩

/-- C5: the target group of the constructed stack has health-check path
`/`, accepted status code set {200}, port 3000, IP target type and HTTP
protocol, in both variants. -/
theorem targetGroup_configuration :
    awsCdkFargateStack.targetGroup.healthCheck.path = "/" ∧
    parseHttpCodes awsCdkFargateStack.targetGroup.healthCheck.healthyHttpCodes
      = [200] ∧
    awsCdkFargateStack.targetGroup.port = 3000 ∧
    awsCdkFargateStack.targetGroup.targetType = TargetType.IP ∧
    awsCdkFargateStack.targetGroup.protocol = ApplicationProtocol.HTTP ∧
    awsCdkEc2Stack.targetGroup = awsCdkFargateStack.targetGroup :=
  ⟨rfl, by decide, rfl, rfl, rfl, rfl⟩

/-- C6: the task definition of the constructed stack declares exactly one
container whose single port mapping has host and container port 3000,
reserves 512 CPU units and 1024 MiB of memory, and the container's log
driver retains logs for 30 days, in both variants. -/
theorem taskDefinition_configuration :
    (awsCdkFargateStack.fargateTaskDefinition.containers.map
      (fun c => c.portMappings)) = [[ { containerPort := 3000,
                                        hostPort := 3000 } ]] ∧
    awsCdkFargateStack.fargateTaskDefinition.cpu = 512 ∧
    awsCdkFargateStack.fargateTaskDefinition.memoryLimitMiB = 1024 ∧
    (awsCdkFargateStack.fargateTaskDefinition.containers.map
      (fun c => c.logging.logRetentionDays)) = [30] ∧
    awsCdkEc2Stack.fargateTaskDefinition =
      awsCdkFargateStack.fargateTaskDefinition :=
  ⟨rfl, rfl, rfl, rfl, rfl⟩

/-- C7: the service of the constructed stack has desired replica count 1,
its attached security groups are exactly the workload-facing one, and it
is registered as a target of the routing target group, in both
variants. -/
theorem service_configuration :
    awsCdkFargateStack.service.desiredCount = 1 ∧
    awsCdkFargateStack.service.securityGroups =
      [awsCdkFargateStack.securityGroupApp.id] ∧
    awsCdkFargateStack.service.attachedTargetGroups =
      [awsCdkFargateStack.targetGroup.id] ∧
    awsCdkEc2Stack.service = awsCdkFargateStack.service :=
  ⟨rfl, rfl, rfl, rfl⟩

/-- C8: the DNS record of the constructed stack is named
`backend.<domain>` for the configured domain, references the looked-up
hosted zone, and targets the load balancer via an alias target, not
static IP addresses, in both variants. -/
theorem aliasRecord_configuration :
    awsCdkFargateStack.aliasRecord.recordName = "backend." ++ domainName ∧
    awsCdkFargateStack.aliasRecord.zone = awsCdkFargateStack.hostedZone.id ∧
    awsCdkFargateStack.aliasRecord.target =
      RecordTarget.fromAlias
        (AliasTarget.loadBalancerTarget awsCdkFargateStack.alb.id) ∧
    (∀ ips, awsCdkFargateStack.aliasRecord.target ≠
      RecordTarget.fromIpAddresses ips) ∧
    awsCdkEc2Stack.aliasRecord = awsCdkFargateStack.aliasRecord :=
  ⟨rfl, rfl, rfl, fun _ h => RecordTarget.noConfusion h, rfl⟩

/-- C9: the load balancer of the constructed stack has exactly one
listener, bound to port 443, presenting exactly the issued certificate,
and forwarding to exactly the single target group, in both variants. -/
theorem listener_configuration :
    awsCdkFargateStack.listeners =
      [ { id := projectName ++ "-listener-http"
          loadBalancer := awsCdkFargateStack.alb.id
          port := 443
          certificates := [awsCdkFargateStack.cert.id]
          targetGroups := [awsCdkFargateStack.targetGroup.id] } ] ∧
    awsCdkEc2Stack.listeners = awsCdkFargateStack.listeners :=
  ⟨rfl, rfl⟩

/-- C10: in every construction of either stack variant, whatever the
configuration constants, the certificate's issuing region is the fixed
string "us-east-1". -/
theorem certificate_region_fixed (d p : String) :
    (mkAwsCdkFargateStack d p).cert.region = "us-east-1" ∧
    (mkAwsCdkEc2Stack d p).cert.region = "us-east-1" :=
  ⟨rfl, rfl⟩
